import Mathlib

set_option maxHeartbeats 1000000

/-!
Verification of the message relay pipeline implemented in
`src/app/api/chat/send-message/route.ts`: the inbound validator, the model
error classifier, the mock response streamer, the event publisher and the
POST orchestration are embedded as pure Lean functions, and the spec's
claims about them are settled as theorems.
-/

namespace ChatRelay

/-! ## JavaScript string primitives -/

/-- Code points removed by JavaScript String.prototype.trim: the WhiteSpace
and LineTerminator code points of the ECMAScript standard. -/
def jsWhitespaceCodes : List Nat :=
  [0x09, 0x0a, 0x0b, 0x0c, 0x0d, 0x20, 0xa0, 0x1680, 0x2000, 0x2001, 0x2002,
   0x2003, 0x2004, 0x2005, 0x2006, 0x2007, 0x2008, 0x2009, 0x200a, 0x2028,
   0x2029, 0x202f, 0x205f, 0x3000, 0xfeff]

def isJsWhitespace (c : Char) : Bool := jsWhitespaceCodes.contains c.toNat

/-- Model of JavaScript String.prototype.trim. -/
def jsTrim (s : String) : String :=
  String.mk (((s.data.dropWhile isJsWhitespace).reverse.dropWhile isJsWhitespace).reverse)

/-- UTF-16 width of one code point: JavaScript string length counts UTF-16
code units, so an astral code point counts twice. -/
def utf16Width (c : Char) : Nat := if 0x10000 ≤ c.toNat then 2 else 1

/-- Model of the JavaScript .length property of a string. -/
def utf16Len (s : String) : Nat := (s.data.map utf16Width).sum

/-- Does the pattern occur as a contiguous run somewhere in the list? -/
def subAt (pat : List Char) : List Char → Bool
  | [] => pat.isEmpty
  | c :: cs => (List.isPrefixOf pat (c :: cs) || subAt pat cs)

/-- Model of JavaScript String.prototype.includes. -/
def strIncludes (s pat : String) : Bool := subAt pat.data s.data

/-- Model of JavaScript String.prototype.toLowerCase (the messages and
keywords involved only exercise the ASCII range, where the two agree). -/
def jsToLower (s : String) : String := String.mk (s.data.map Char.toLower)

/-- Splitting worker: `splitSpAux acc cs` splits `cs` at every space
character, `acc` holding the (reversed) characters of the current token. -/
def splitSpAux : List Char → List Char → List (List Char)
  | acc, [] => [acc.reverse]
  | acc, c :: cs =>
    if c = ' ' then acc.reverse :: splitSpAux [] cs else splitSpAux (c :: acc) cs

/-- Model of JavaScript .split(" "): split at every single space character;
consecutive spaces produce empty tokens, and the result is never empty. -/
def jsSplitSpace (s : String) : List String := (splitSpAux [] s.data).map String.mk

/-! ## Untyped request payloads and the inbound validator
(`validateRequestBody`, route.ts lines 119-143) -/

/-- A JSON field value as the validator's truthiness and typeof checks see
it: absent (undefined), null, a number, a boolean, or a string. -/
inductive JFieldVal where
  | undef
  | null
  | num (n : Int)
  | bool (b : Bool)
  | str (s : String)
deriving DecidableEq

/-- JavaScript truthiness of a field value. -/
def JFieldVal.truthy : JFieldVal → Bool
  | .undef => false
  | .null => false
  | .num n => decide (¬ n = 0)
  | .bool b => b
  | .str s => decide (¬ s = "")

/-- A parsed (non-null) JSON request body: either not an object at all, or
an object carrying the three fields the route reads. -/
inductive JBodyTop where
  | nonObject
  | obj (message sessionId userId : JFieldVal)
deriving DecidableEq

/-- The validated request produced by `validateRequestBody`: the trimmed
message, the session id, and the (defaulted, but otherwise unchecked)
userId value. -/
structure RequestBody where
  message : String
  sessionId : String
  userId : JFieldVal
deriving DecidableEq

/-- Destructuring default `userId = "anonymous"`: applied only when the
field is undefined. -/
def defaultUserId : JFieldVal → JFieldVal
  | .undef => .str "anonymous"
  | v => v

/-- `validateRequestBody` (route.ts lines 119-143). Checks in source order:
body an object; message truthy and a string; sessionId truthy and a string;
trimmed message non-empty; raw message length at most 4000. Returns the
trimmed message. A thrown `Error(msg)` is modelled as `Except.error msg`. -/
def validateRequestBody : JBodyTop → Except String RequestBody
  | .nonObject => Except.error "Request body must be an object"
  | .obj message sessionId userId =>
    match message with
    | .str m =>
      if m = "" then Except.error "Message is required and must be a string"
      else
        match sessionId with
        | .str s =>
          if s = "" then Except.error "SessionId is required and must be a string"
          else if utf16Len (jsTrim m) = 0 then Except.error "Message cannot be empty"
          else if 4000 < utf16Len m then Except.error "Message too long (max 4000 characters)"
          else Except.ok ⟨jsTrim m, s, defaultUserId userId⟩
        | _ => Except.error "SessionId is required and must be a string"
    | _ => Except.error "Message is required and must be a string"

/-! ## Model error classifier (`handleOpenAIError`, route.ts lines 145-212) -/

/-- What the classifier reads off a raw OpenAI error: the optional `status`
and `code` properties, and its stringification (used only for the debug
`details` field). -/
structure OpenAIErr where
  status : Option Nat
  code : Option String
  asString : String
deriving DecidableEq

/-- The classifier's result: user-facing message, stable code, HTTP status. -/
structure ErrorInfo where
  message : String
  code : String
  status : Nat
deriving DecidableEq

/-- `handleOpenAIError` (route.ts lines 145-212). The JavaScript comparison
`error?.status >= 500` is false when `status` is absent, hence the
`Option.getD 0`. -/
def handleOpenAIError (e : OpenAIErr) : ErrorInfo :=
  if e.status = some 429 then
    if e.code = some "insufficient_quota" then
      ⟨"OpenAI API quota exceeded.", "QUOTA_EXCEEDED", 429⟩
    else
      ⟨"OpenAI rate limit exceeded. Please try again in a moment.", "RATE_LIMITED", 429⟩
  else if e.status = some 401 then
    ⟨"OpenAI API key is invalid. Please check your API key configuration.",
      "AUTH_FAILED", 500⟩
  else if e.status = some 400 then
    ⟨"Invalid request to OpenAI. Please try a different message.", "INVALID_REQUEST", 400⟩
  else if 500 ≤ e.status.getD 0 then
    ⟨"OpenAI service is currently unavailable. Please try again later.",
      "SERVICE_UNAVAILABLE", 503⟩
  else if e.code = some "ENOTFOUND" ∨ e.code = some "ECONNREFUSED" then
    ⟨"Unable to connect to OpenAI. Please check your internet connection.",
      "CONNECTION_ERROR", 503⟩
  else
    ⟨"An unexpected error occurred while processing your message.", "UNKNOWN_ERROR", 500⟩

/-! ## Events and the publisher boundary
(`sendPusherEvent`, route.ts lines 214-225) -/

/-- The payload of one published event (timestamps, which are wall-clock
noise, are not modelled). -/
inductive EventPayload where
  | userMessage (message : String) (userId : JFieldVal)
  | assistantChunk (messageId content chunk : String) (isComplete : Bool)
  | assistantComplete (messageId content : String) (isComplete : Bool)
  | serviceError (error errorCode : String)
  | errorEvent (error errorCode : String) (details : Option String)
deriving DecidableEq

/-- One attempted publish: channel, event name, payload. -/
structure Attempt where
  channel : String
  event : String
  payload : EventPayload
deriving DecidableEq

/-- The per-session broadcast channel name. -/
def chatChannel (sessionId : String) : String := "chat-" ++ sessionId

/-- The underlying broker call `pusher.trigger`: succeeds or throws,
according to the outcome bit `ok` the environment supplies. -/
def pusherTrigger (ok : Bool) (_channel _event : String) (_data : EventPayload) :
    Except String Unit :=
  if ok then Except.ok () else Except.error "pusher trigger failed"

/-- `sendPusherEvent` (route.ts lines 214-225): the trigger call is wrapped
in try/catch and any failure is logged and swallowed, so the caller always
sees a normal return. -/
def sendPusherEvent (ok : Bool) (channel event : String) (data : EventPayload) :
    Except String Unit :=
  match pusherTrigger ok channel event data with
  | Except.ok _ => Except.ok ()
  | Except.error _ => Except.ok ()

/-- Whether one attempted publish was actually delivered by the broker. -/
def deliveredFlag (ok : Bool) (e : Attempt) : Bool :=
  match pusherTrigger ok e.channel e.event e.payload with
  | Except.ok _ => true
  | Except.error _ => false

/-! ## Mock response streamer (`generateMockResponse`, route.ts lines 227-279) -/

def mockGreeting : String :=
  "Hello! This is a mock response. Your API is working correctly! How can I help you today?"

def mockTestReply : String :=
  "This is a test response. Your streaming API, Pusher integration, and error handling are all functioning properly."

def mockStatusReply : String :=
  "I'm doing well, thank you! This is a simulated response while you're in development mode."

def mockEchoReply (message : String) : String :=
  "You said: \"" ++ message ++ "\". This is a mock AI response to test your chat API. Everything is working correctly!"

/-- The canned reply selection (route.ts lines 236-249): substring keyword
match on the lower-cased input, in source order. -/
def mockReply (message : String) : String :=
  let lower := jsToLower message
  if strIncludes lower "hello" || strIncludes lower "hi" then mockGreeting
  else if strIncludes lower "test" then mockTestReply
  else if strIncludes lower "how are you" then mockStatusReply
  else mockEchoReply message

/-- The word loop's chunk construction (route.ts line 257): the first token
unchanged, every later token prefixed with one space. -/
def prefixChunks : List String → List String
  | [] => []
  | w :: ws => w :: ws.map (fun x => " " ++ x)

/-- The chunk emission loop shared by both streaming paths: accumulate each
chunk into the running content and publish one assistant-message-chunk
event per chunk, `isComplete` false. Returns the accumulated text and the
attempted events in order. -/
def emitChunks (sessionId messageId : String) : String → List String → String × List Attempt
  | acc, [] => (acc, [])
  | acc, c :: cs =>
    let acc2 := acc ++ c
    let rest := emitChunks sessionId messageId acc2 cs
    (rest.1,
      Attempt.mk (chatChannel sessionId) "assistant-message-chunk"
        (EventPayload.assistantChunk messageId acc2 c false) :: rest.2)

/-- `generateMockResponse` (route.ts lines 227-279): pick the canned reply,
split it at single spaces, emit one chunk per token (space-prefixed except
the first), return the accumulated text. The fixed 150ms pacing delay has
no observable effect and is not modelled. -/
def generateMockResponse (message messageId sessionId : String) : String × List Attempt :=
  emitChunks sessionId messageId "" (prefixChunks (jsSplitSpace (mockReply message)))

/-! ## Conversation store and the POST orchestration (route.ts lines 281-497) -/

inductive Role where
  | system
  | user
  | assistant
deriving DecidableEq

structure ChatMessage where
  role : Role
  content : String
deriving DecidableEq

/-- The in-memory `conversations` map: session id to transcript. -/
def ConvMap := String → Option (List ChatMessage)

def emptyConv : ConvMap := fun _ => none

def setConv (m : ConvMap) (k : String) (v : List ChatMessage) : ConvMap :=
  fun k2 => if k2 = k then some v else m k2

/-- The fixed system instruction seeding a fresh conversation
(route.ts lines 299-308). -/
def systemPrompt : String :=
  "You are a helpful AI assistant. Respond conversationally and be engaging."

/-- The transcript the request starts from: the stored one, or a fresh one
seeded with the single system turn. -/
def baseConv (m : ConvMap) (sessionId : String) : List ChatMessage :=
  match m sessionId with
  | some h => h
  | none => [⟨Role.system, systemPrompt⟩]

/-- HTTP response body: the success shape of route.ts lines 446-450, or the
`ErrorResponse` shape of lines 22-26. -/
inductive RespBody where
  | ok (success : Bool) (messageId message : String)
  | err (error : String) (errorCode : Option String) (details : Option String)
deriving DecidableEq

structure HttpResp where
  status : Nat
  body : RespBody
deriving DecidableEq

/-- Environment flags: `mockMode` is NODE_ENV=development together with
MOCK_OPENAI=true (route.ts lines 334-337), `devMode` is NODE_ENV=development
alone (it gates only the debug `details` fields). -/
structure Env where
  mockMode : Bool
  devMode : Bool
deriving DecidableEq

/-- How the request body arrived at the handler: `request.json()` rejected
with an error message; parsed to JSON null (the logging line 288 then
throws a TypeError reading `.message` of null); or parsed to a value the
validator inspects. -/
inductive PostInput where
  | parseFailure (msg : String)
  | parsedNull
  | parsedBody (b : JBodyTop)
deriving DecidableEq

/-- One request's inputs: the conversation store before the request, the
parsed body, the environment flags, the generated message id (random in the
source), and the model-backed stream's outcome — the content deltas
received, then an optional failure that ended the stream (a failure before
the first chunk is `deltas = []`). In mock mode `deltas` and `apiError`
are unused. -/
structure PostArgs where
  conv : ConvMap
  input : PostInput
  env : Env
  messageId : String
  deltas : List String
  apiError : Option OpenAIErr

/-- One request's observable outcome: the HTTP response, the publish
attempts in order, and the conversation store afterwards. -/
structure PostResult where
  response : HttpResp
  attempts : List Attempt
  convs : ConvMap

/-- The catch-all error classification (route.ts lines 458-496): an error
message counts as a validation error when it contains one of four fixed
substrings. -/
def isValidationErrorMsg (m : String) : Bool :=
  strIncludes m "required" || strIncludes m "must be" ||
    strIncludes m "cannot be empty" || strIncludes m "too long"

/-- The catch block (route.ts lines 458-496): choose text, code and status
by `isValidationErrorMsg`; publish one generic error event when a session
id was already resolved; return the error response. Yields the response
and the publish attempts the block makes. -/
def catchHandler (sidOpt : Option String) (errorMessage : String) (devMode : Bool) :
    HttpResp × List Attempt :=
  let isVal := isValidationErrorMsg errorMessage
  let errText := if isVal then errorMessage else "Failed to process message"
  let errCode := if isVal then "VALIDATION_ERROR" else "PROCESSING_ERROR"
  let details := if devMode then some errorMessage else none
  let evs : List Attempt :=
    match sidOpt with
    | some sid => [⟨chatChannel sid, "error", EventPayload.errorEvent errText errCode details⟩]
    | none => []
  (⟨if isVal then 400 else 500, RespBody.err errText (some errCode) details⟩, evs)

/-- A request that ends in the catch block before any session id was
resolved: conversation store untouched, no events. -/
def reportCatch (a : PostArgs) (msg : String) : PostResult :=
  ⟨(catchHandler none msg a.env.devMode).1, (catchHandler none msg a.env.devMode).2, a.conv⟩

/-- The user-message event (route.ts lines 319-326), with the
`userId || "anonymous"` fallback of line 321. -/
def userEvent (req : RequestBody) : Attempt :=
  ⟨chatChannel req.sessionId, "user-message",
    EventPayload.userMessage req.message
      (if req.userId.truthy then req.userId else JFieldVal.str "anonymous")⟩

/-- The tail of the handler after streaming produced `text` (route.ts lines
419-457): empty or whitespace-only text throws "No response generated"
(caught by the catch block, session id resolved); otherwise the assistant
turn is appended, the completion event (`isComplete` true) is published and
the 200 success body is returned. `conv1` is the transcript with the user
turn already pushed. -/
def finishRequest (a : PostArgs) (sid : String) (conv1 : List ChatMessage)
    (userEv : Attempt) (chunkEvs : List Attempt) (text : String) : PostResult :=
  if jsTrim text = "" then
    let c := catchHandler (some sid) "No response generated" a.env.devMode
    ⟨c.1, userEv :: chunkEvs ++ c.2, setConv a.conv sid conv1⟩
  else
    ⟨⟨200, RespBody.ok true a.messageId text⟩,
      userEv :: chunkEvs ++
        [⟨chatChannel sid, "assistant-message-complete",
          EventPayload.assistantComplete a.messageId text true⟩],
      setConv a.conv sid (conv1 ++ [⟨Role.assistant, text⟩])⟩

/-- The validated part of the POST handler (route.ts lines 296-457):
fetch-or-seed the transcript, push the user turn, publish the user event,
then stream — the mock generator in mock mode, else the model-backed loop,
which accumulates and publishes only non-empty deltas and on failure
classifies the error, publishes a service-error event and returns the
classified response at once (user turn kept, no assistant turn). -/
def handleValidated (a : PostArgs) (req : RequestBody) : PostResult :=
  let sid := req.sessionId
  let conv1 := baseConv a.conv sid ++ [⟨Role.user, req.message⟩]
  let userEv := userEvent req
  if a.env.mockMode then
    let r := generateMockResponse req.message a.messageId sid
    finishRequest a sid conv1 userEv r.2 r.1
  else
    let r := emitChunks sid a.messageId "" (a.deltas.filter (fun c => !(c == "")))
    match a.apiError with
    | some e =>
      let info := handleOpenAIError e
      ⟨⟨info.status,
          RespBody.err info.message (some info.code)
            (if a.env.devMode then some e.asString else none)⟩,
        userEv :: r.2 ++
          [⟨chatChannel sid, "service-error", EventPayload.serviceError info.message info.code⟩],
        setConv a.conv sid conv1⟩
    | none => finishRequest a sid conv1 userEv r.2 r.1

/-- The POST handler (route.ts lines 281-497). A JSON parse failure or a
null body throws before the session id is assigned, so those paths reach
the catch block with no session resolved and publish nothing. -/
def POST (a : PostArgs) : PostResult :=
  match a.input with
  | PostInput.parseFailure m => reportCatch a m
  | PostInput.parsedNull => reportCatch a "Cannot read properties of null (reading 'message')"
  | PostInput.parsedBody b =>
    match validateRequestBody b with
    | Except.error m => reportCatch a m
    | Except.ok req => handleValidated a req

/-- The handler together with the broker outcome oracle `ok`: attempt `k`
of the request is delivered exactly when `pusherTrigger (ok k)` succeeds.
The orchestration never reads a publish outcome, which is what claim C8
asserts. -/
def POSTrun (a : PostArgs) (ok : Nat → Bool) : PostResult × List (Attempt × Bool) :=
  (POST a, (POST a).attempts.enum.map (fun p => (p.2, deliveredFlag (ok p.1) p.2)))

/-- The chunks the successful stream of a request would emit: the mock
word-chunks in mock mode, else the non-empty model deltas. -/
def streamChunks (a : PostArgs) (req : RequestBody) : List String :=
  if a.env.mockMode then prefixChunks (jsSplitSpace (mockReply req.message))
  else a.deltas.filter (fun c => !(c == ""))

/-- The chunk events a request's stream publishes. -/
def streamChunkEvents (a : PostArgs) (req : RequestBody) : List Attempt :=
  (emitChunks req.sessionId a.messageId "" (streamChunks a req)).2

/-- The final assistant text a request's stream produces. -/
def finalTextOf (a : PostArgs) (req : RequestBody) : String :=
  (emitChunks req.sessionId a.messageId "" (streamChunks a req)).1

/-! ## Spec-side formulations and observation helpers -/

/-- The classification table exactly as the spec's claim C4 words it, in its
stated precedence order (codes and statuses only; messages are handled by
`fixedMessageOf`). -/
def classifyCodeStatus (e : OpenAIErr) : String × Nat :=
  if e.status = some 429 ∧ e.code = some "insufficient_quota" then ("QUOTA_EXCEEDED", 429)
  else if e.status = some 429 then ("RATE_LIMITED", 429)
  else if e.status = some 401 then ("AUTH_FAILED", 500)
  else if e.status = some 400 then ("INVALID_REQUEST", 400)
  else if 500 ≤ e.status.getD 0 then ("SERVICE_UNAVAILABLE", 503)
  else if e.code = some "ENOTFOUND" ∨ e.code = some "ECONNREFUSED" then ("CONNECTION_ERROR", 503)
  else ("UNKNOWN_ERROR", 500)

/-- The user-facing message as a function of the classified code alone:
its existence shows no branch incorporates the raw error's content. -/
def fixedMessageOf (code : String) : String :=
  if code = "QUOTA_EXCEEDED" then "OpenAI API quota exceeded."
  else if code = "RATE_LIMITED" then "OpenAI rate limit exceeded. Please try again in a moment."
  else if code = "AUTH_FAILED" then "OpenAI API key is invalid. Please check your API key configuration."
  else if code = "INVALID_REQUEST" then "Invalid request to OpenAI. Please try a different message."
  else if code = "SERVICE_UNAVAILABLE" then "OpenAI service is currently unavailable. Please try again later."
  else if code = "CONNECTION_ERROR" then "Unable to connect to OpenAI. Please check your internet connection."
  else "An unexpected error occurred while processing your message."

/-- Splitting worker at arbitrary whitespace, for the spec's phrase
"whitespace-separated word". -/
def splitWsAux : List Char → List Char → List (List Char)
  | acc, [] => [acc.reverse]
  | acc, c :: cs =>
    if isJsWhitespace c then acc.reverse :: splitWsAux [] cs else splitWsAux (c :: acc) cs

/-- The whitespace-separated words of a string: maximal runs of
non-whitespace characters. -/
def whitespaceWords (s : String) : List String :=
  ((splitWsAux [] s.data).map String.mk).filter (fun w => !(w == ""))

/-- The (content, chunk) pair of an assistant-message-chunk event. -/
def chunkRecOf (e : Attempt) : Option (String × String) :=
  match e.payload with
  | EventPayload.assistantChunk _ content chunk _ => some (content, chunk)
  | _ => none

/-- The (content, chunk) pairs of a trace's chunk events, in order. -/
def chunkRecs (evs : List Attempt) : List (String × String) := evs.filterMap chunkRecOf

/-- The chunk (delta) fields of a trace's chunk events, in order. -/
def chunkFieldsOf (evs : List Attempt) : List String := (chunkRecs evs).map Prod.snd

/-- The cumulative content fields of a trace's chunk events, in order. -/
def chunkContents (evs : List Attempt) : List String := (chunkRecs evs).map Prod.fst

/-- The claim's accumulation invariant: starting from `acc`, each content
equals the previous content with that event's chunk appended. -/
def chainFrom : String → List (String × String) → Bool
  | _, [] => true
  | acc, p :: rest => decide (p.1 = acc ++ p.2) && chainFrom p.1 rest

/-- The `isComplete` flag an event carries, false for events without one. -/
def isCompleteTrue (e : Attempt) : Bool :=
  match e.payload with
  | EventPayload.assistantChunk _ _ _ b => b
  | EventPayload.assistantComplete _ _ b => b
  | _ => false

/-- Reference description of `emitChunks`: the (content, chunk) pairs
produced when accumulating `cs` onto `acc`. -/
def chunkPairs : String → List String → List (String × String)
  | _, [] => []
  | acc, c :: cs => (acc ++ c, c) :: chunkPairs (acc ++ c) cs

/-- Join a token list with single spaces (character-list level). -/
def spaceJoin : List (List Char) → List Char
  | [] => []
  | t :: ts => t ++ (ts.map (fun x => ' ' :: x)).flatten

/-! ## Concrete requests used by witnesses and counterexamples -/

/-- A mock-mode request: message "hello", session "s1". -/
def wArgs1 : PostArgs :=
  ⟨emptyConv,
    PostInput.parsedBody (JBodyTop.obj (JFieldVal.str "hello") (JFieldVal.str "s1") JFieldVal.undef),
    ⟨true, true⟩, "m1", [], none⟩

/-- The validated request `wArgs1` produces. -/
def wReq1 : RequestBody := ⟨"hello", "s1", JFieldVal.str "anonymous"⟩

/-- A request whose body has the empty-string message. -/
def c2args : PostArgs :=
  ⟨emptyConv,
    PostInput.parsedBody (JBodyTop.obj (JFieldVal.str "") (JFieldVal.str "s1") JFieldVal.undef),
    ⟨false, false⟩, "m1", [], none⟩

/-- 4000 letters followed by one trailing space: raw length 4001, trimmed
length 4000. -/
def longMsg : String := String.mk (List.replicate 4000 'a' ++ [' '])

/-- Any request context for the C3 witness. -/
def c3args : PostArgs :=
  ⟨emptyConv,
    PostInput.parsedBody (JBodyTop.obj (JFieldVal.str "hello") (JFieldVal.str "s1") JFieldVal.undef),
    ⟨true, true⟩, "m1", [], none⟩

/-- A model-backed request whose stream succeeds but only ever delivers one
whitespace delta, so the final text is " ". -/
def c5args : PostArgs :=
  ⟨emptyConv,
    PostInput.parsedBody (JBodyTop.obj (JFieldVal.str "x") (JFieldVal.str "s1") JFieldVal.undef),
    ⟨false, false⟩, "m1", [" "], none⟩

/-- The validated request `c5args` (and `c6args`, `c7args`) produces. -/
def wReqX : RequestBody := ⟨"x", "s1", JFieldVal.str "anonymous"⟩

/-- The raw error of the C6 witness: HTTP 429 with the quota code. -/
def c6err : OpenAIErr := ⟨some 429, some "insufficient_quota", "RateLimitError: 429"⟩

/-- A model-backed request that fails mid-stream after two deltas. -/
def c6args : PostArgs :=
  ⟨emptyConv,
    PostInput.parsedBody (JBodyTop.obj (JFieldVal.str "x") (JFieldVal.str "s1") (JFieldVal.str "u1")),
    ⟨false, false⟩, "m1", ["He", "llo"], some c6err⟩

/-- The validated request `c6args` produces. -/
def wReq6 : RequestBody := ⟨"x", "s1", JFieldVal.str "u1"⟩

/-- A model-backed request whose stream succeeds with no deltas at all, so
the final text is empty. -/
def c7args : PostArgs :=
  ⟨emptyConv,
    PostInput.parsedBody (JBodyTop.obj (JFieldVal.str "x") (JFieldVal.str "s1") JFieldVal.undef),
    ⟨false, false⟩, "m1", [], none⟩

/-- A request whose JSON body failed to parse, with a realistic V8 parse
error message. -/
def c10args : PostArgs :=
  ⟨emptyConv, PostInput.parseFailure "Unexpected end of JSON input",
    ⟨false, true⟩, "m1", [], none⟩

deriving instance DecidableEq for Except

/-! ## Helper lemmas -/

theorem mockMode_false_of_not (b : Bool) (h : ¬ b = true) : b = false := by
  cases b
  · rfl
  · exact absurd rfl h

theorem isJsWhitespace_a : isJsWhitespace 'a' = false := by decide

theorem isJsWhitespace_sp : isJsWhitespace ' ' = true := by decide

theorem dropWhile_replicate_a (n : Nat) :
    (List.replicate n 'a').dropWhile isJsWhitespace = List.replicate n 'a' := by
  cases n with
  | zero => rfl
  | succ m =>
    rw [List.replicate_succ, List.dropWhile_cons_of_neg (by simp [isJsWhitespace_a])]

theorem jsTrim_replicate_space (n : Nat) :
    jsTrim (String.mk (List.replicate n 'a' ++ [' '])) = String.mk (List.replicate n 'a') := by
  cases n with
  | zero => decide
  | succ m =>
    unfold jsTrim
    rw [show (String.mk (List.replicate (m + 1) 'a' ++ [' '])).data
          = List.replicate (m + 1) 'a' ++ [' '] from rfl]
    rw [List.replicate_succ, List.cons_append,
      List.dropWhile_cons_of_neg (by simp [isJsWhitespace_a])]
    rw [List.reverse_cons, List.reverse_append]
    simp only [List.reverse_cons, List.reverse_nil, List.nil_append, List.reverse_replicate,
      List.singleton_append, List.append_assoc]
    rw [List.cons_append, List.dropWhile_cons_of_pos (by simp [isJsWhitespace_sp])]
    rw [show List.replicate m 'a' ++ ['a'] = List.replicate (m + 1) 'a' from
      (List.replicate_succ' m 'a').symm]
    rw [dropWhile_replicate_a, List.reverse_replicate, List.replicate_succ]

theorem sum_replicate_one (n : Nat) : (List.replicate n (1 : Nat)).sum = n := by
  induction n with
  | zero => rfl
  | succ m ih => rw [List.replicate_succ, List.sum_cons, ih, Nat.add_comm]

theorem utf16Len_replicate_a (n : Nat) : utf16Len (String.mk (List.replicate n 'a')) = n := by
  unfold utf16Len
  rw [show (String.mk (List.replicate n 'a')).data = List.replicate n 'a' from rfl]
  rw [List.map_replicate, show utf16Width 'a' = 1 from rfl, sum_replicate_one]

theorem utf16Len_longMsg : utf16Len longMsg = 4001 := by
  unfold utf16Len longMsg
  rw [show (String.mk (List.replicate 4000 'a' ++ [' '])).data
        = List.replicate 4000 'a' ++ [' '] from rfl]
  rw [List.map_append, List.sum_append, List.map_replicate]
  rw [show utf16Width 'a' = 1 from rfl, sum_replicate_one]
  decide

theorem longMsg_ne_empty : ¬ longMsg = "" := by
  intro h
  have h2 : longMsg.data.length = ("" : String).data.length := by rw [h]
  rw [show longMsg.data = List.replicate 4000 'a' ++ [' '] from rfl] at h2
  rw [List.length_append, List.length_replicate] at h2
  simp at h2

theorem utf16Len_eq_zero_iff (t : String) : utf16Len t = 0 ↔ t = "" := by
  constructor
  · intro h
    cases t with
    | mk l =>
      cases l with
      | nil => rfl
      | cons c cs =>
        exfalso
        unfold utf16Len at h
        simp only [List.map_cons, List.sum_cons] at h
        have hw : ¬ utf16Width c = 0 := by unfold utf16Width; split <;> simp
        omega
  · intro h
    rw [h]
    rfl

theorem emitChunks_fst (sid mid : String) (cs : List String) :
    ∀ acc, (emitChunks sid mid acc cs).1 = cs.foldl (fun a c => a ++ c) acc := by
  induction cs with
  | nil => intro acc; rfl
  | cons c cs ih => intro acc; simp only [emitChunks, List.foldl_cons]; exact ih (acc ++ c)

theorem emitChunks_recs (sid mid : String) (cs : List String) :
    ∀ acc, chunkRecs (emitChunks sid mid acc cs).2 = chunkPairs acc cs := by
  induction cs with
  | nil => intro acc; rfl
  | cons c cs ih =>
    intro acc
    simp only [emitChunks, chunkPairs, chunkRecs, List.filterMap_cons]
    rw [show chunkRecOf
        (Attempt.mk (chatChannel sid) "assistant-message-chunk"
          (EventPayload.assistantChunk mid (acc ++ c) c false)) = some (acc ++ c, c) from rfl]
    rw [show List.filterMap chunkRecOf (emitChunks sid mid (acc ++ c) cs).2
        = chunkRecs (emitChunks sid mid (acc ++ c) cs).2 from rfl]
    rw [ih (acc ++ c)]

theorem chainFrom_chunkPairs (cs : List String) :
    ∀ acc, chainFrom acc (chunkPairs acc cs) = true := by
  induction cs with
  | nil => intro acc; rfl
  | cons c cs ih =>
    intro acc
    simp only [chunkPairs, chainFrom, decide_eq_true_eq, Bool.and_eq_true]
    exact ⟨by simp, ih (acc ++ c)⟩

theorem chunkPairs_last (cs : List String) :
    ∀ acc, ¬ cs = [] →
      ((chunkPairs acc cs).map Prod.fst).getLast? =
        some (cs.foldl (fun a c => a ++ c) acc) := by
  induction cs with
  | nil => intro acc h; exact absurd rfl h
  | cons c cs ih =>
    intro acc _
    cases cs with
    | nil => rfl
    | cons c2 cs2 =>
      simp only [chunkPairs, List.map_cons, List.foldl_cons]
      rw [List.getLast?_cons_cons]
      have h2 := ih (acc ++ c) (by simp)
      simp only [chunkPairs, List.map_cons, List.foldl_cons] at h2
      exact h2

theorem emitChunks_mem (sid mid : String) (cs : List String) :
    ∀ acc e, e ∈ (emitChunks sid mid acc cs).2 →
      ∃ co ch, e = ⟨chatChannel sid, "assistant-message-chunk",
        EventPayload.assistantChunk mid co ch false⟩ := by
  induction cs with
  | nil => intro acc e h; exact absurd h (by simp [emitChunks])
  | cons c cs ih =>
    intro acc e h
    simp only [emitChunks, List.mem_cons] at h
    cases h with
    | inl h => exact ⟨acc ++ c, c, h⟩
    | inr h => exact ih (acc ++ c) e h

theorem emitChunks_fields (sid mid : String) (cs : List String) :
    ∀ acc, chunkFieldsOf (emitChunks sid mid acc cs).2 = cs := by
  induction cs with
  | nil => intro acc; rfl
  | cons c cs ih =>
    intro acc
    unfold chunkFieldsOf
    rw [emitChunks_recs]
    simp only [chunkPairs, List.map_cons]
    have h := ih (acc ++ c)
    unfold chunkFieldsOf at h
    rw [emitChunks_recs] at h
    rw [h]

theorem emitChunks_countP (sid mid : String) (cs : List String) :
    ∀ acc, (emitChunks sid mid acc cs).2.countP isCompleteTrue = 0 := by
  induction cs with
  | nil => intro acc; rfl
  | cons c cs ih =>
    intro acc
    simp only [emitChunks, List.countP_cons]
    rw [show isCompleteTrue
        (Attempt.mk (chatChannel sid) "assistant-message-chunk"
          (EventPayload.assistantChunk mid (acc ++ c) c false)) = false from rfl]
    simp [ih (acc ++ c)]

theorem splitSpAux_ne_nil (l : List Char) : ∀ acc, ¬ splitSpAux acc l = [] := by
  induction l with
  | nil => intro acc; simp [splitSpAux]
  | cons c cs ih =>
    intro acc
    simp only [splitSpAux]
    by_cases hc : c = ' '
    · simp [hc]
    · simp only [if_neg hc]
      exact ih (c :: acc)

theorem spaceJoin_cons2 (x t : List Char) (ts : List (List Char)) :
    spaceJoin (x :: t :: ts) = x ++ ' ' :: spaceJoin (t :: ts) := by
  simp [spaceJoin]

theorem spaceJoin_splitSpAux (l : List Char) :
    ∀ acc, spaceJoin (splitSpAux acc l) = acc.reverse ++ l := by
  induction l with
  | nil => intro acc; simp [splitSpAux, spaceJoin]
  | cons c cs ih =>
    intro acc
    simp only [splitSpAux]
    by_cases hc : c = ' '
    · rw [if_pos hc]
      obtain ⟨t, ts, hts⟩ : ∃ t ts, splitSpAux [] cs = t :: ts := by
        cases h : splitSpAux [] cs with
        | nil => exact absurd h (splitSpAux_ne_nil cs [])
        | cons t ts => exact ⟨t, ts, rfl⟩
      rw [hts, spaceJoin_cons2, ← hts, ih []]
      simp [hc]
    · rw [if_neg hc, ih (c :: acc)]
      simp

theorem mk_append (l1 l2 : List Char) :
    String.mk l1 ++ String.mk l2 = String.mk (l1 ++ l2) := rfl

theorem foldAppend_map (ts : List (List Char)) :
    ∀ x, (ts.map (fun u => " " ++ String.mk u)).foldl (fun a c => a ++ c) (String.mk x) =
      String.mk (x ++ (ts.map (fun u => ' ' :: u)).flatten) := by
  induction ts with
  | nil => intro x; simp
  | cons t ts ih =>
    intro x
    simp only [List.map_cons, List.foldl_cons, List.flatten_cons]
    rw [show String.mk x ++ (" " ++ String.mk t) = String.mk (x ++ ' ' :: t) from rfl]
    rw [ih (x ++ ' ' :: t)]
    simp

theorem mockFold (r : String) :
    (prefixChunks (jsSplitSpace r)).foldl (fun a c => a ++ c) "" = r := by
  unfold jsSplitSpace
  obtain ⟨t, ts, hts⟩ : ∃ t ts, splitSpAux [] r.data = t :: ts := by
    cases h : splitSpAux [] r.data with
    | nil => exact absurd h (splitSpAux_ne_nil r.data [])
    | cons t ts => exact ⟨t, ts, rfl⟩
  rw [hts]
  simp only [List.map_cons, prefixChunks, List.foldl_cons]
  rw [show ("" : String) ++ String.mk t = String.mk t by
    rw [show ("" : String) = String.mk [] from rfl, mk_append]; simp]
  rw [List.map_map]
  rw [show ((fun x => " " ++ x) ∘ String.mk) = (fun u => " " ++ String.mk u) from rfl]
  rw [foldAppend_map]
  rw [show t ++ (ts.map (fun u => ' ' :: u)).flatten = spaceJoin (t :: ts) from rfl]
  rw [← hts, spaceJoin_splitSpAux r.data []]
  simp only [List.reverse_nil, List.nil_append]

theorem streamChunks_mock (a : PostArgs) (req : RequestBody) (hm : a.env.mockMode = true) :
    (generateMockResponse req.message a.messageId req.sessionId).1 = finalTextOf a req ∧
    (generateMockResponse req.message a.messageId req.sessionId).2 = streamChunkEvents a req := by
  unfold finalTextOf streamChunkEvents streamChunks
  rw [hm]
  exact ⟨rfl, rfl⟩

theorem streamChunks_model (a : PostArgs) (req : RequestBody) (hm : a.env.mockMode = false) :
    (emitChunks req.sessionId a.messageId "" (a.deltas.filter (fun c => !(c == "")))).1
        = finalTextOf a req ∧
    (emitChunks req.sessionId a.messageId "" (a.deltas.filter (fun c => !(c == "")))).2
        = streamChunkEvents a req := by
  unfold finalTextOf streamChunkEvents streamChunks
  rw [hm]
  exact ⟨rfl, rfl⟩

theorem streamChunkEvents_mem (a : PostArgs) (req : RequestBody) :
    ∀ ev ∈ streamChunkEvents a req,
      ∃ co ch, ev = ⟨chatChannel req.sessionId, "assistant-message-chunk",
        EventPayload.assistantChunk a.messageId co ch false⟩ :=
  fun ev hev => emitChunks_mem req.sessionId a.messageId (streamChunks a req) "" ev hev

theorem streamChunkEvents_countP (a : PostArgs) (req : RequestBody) :
    (streamChunkEvents a req).countP isCompleteTrue = 0 :=
  emitChunks_countP req.sessionId a.messageId (streamChunks a req) ""

theorem streamChunkEvents_recs (a : PostArgs) (req : RequestBody) :
    chunkRecs (streamChunkEvents a req) = chunkPairs "" (streamChunks a req) :=
  emitChunks_recs req.sessionId a.messageId (streamChunks a req) ""

theorem finalTextOf_foldl (a : PostArgs) (req : RequestBody) :
    finalTextOf a req = (streamChunks a req).foldl (fun x c => x ++ c) "" :=
  emitChunks_fst req.sessionId a.messageId (streamChunks a req) ""

theorem streamChunks_ne_nil (a : PostArgs) (req : RequestBody)
    (hT : ¬ jsTrim (finalTextOf a req) = "") : ¬ streamChunks a req = [] := by
  intro h
  apply hT
  rw [finalTextOf_foldl, h]
  rfl

theorem handleValidated_success_eq (a : PostArgs) (req : RequestBody)
    (hstream : a.env.mockMode = false → a.apiError = none)
    (hT : ¬ jsTrim (finalTextOf a req) = "") :
    handleValidated a req =
      ⟨⟨200, RespBody.ok true a.messageId (finalTextOf a req)⟩,
        userEvent req :: streamChunkEvents a req ++
          [⟨chatChannel req.sessionId, "assistant-message-complete",
            EventPayload.assistantComplete a.messageId (finalTextOf a req) true⟩],
        setConv a.conv req.sessionId
          (baseConv a.conv req.sessionId ++
            [⟨Role.user, req.message⟩, ⟨Role.assistant, finalTextOf a req⟩])⟩ := by
  by_cases hm : a.env.mockMode = true
  · obtain ⟨h1, h2⟩ := streamChunks_mock a req hm
    simp only [handleValidated, hm, eq_self_iff_true, if_true, finishRequest, h1, h2,
      if_neg hT, List.append_assoc, List.singleton_append]
  · have hf : a.env.mockMode = false := mockMode_false_of_not _ hm
    obtain ⟨h1, h2⟩ := streamChunks_model a req hf
    have hnone := hstream hf
    simp only [handleValidated, hf, Bool.false_eq_true, if_false, hnone, finishRequest, h1, h2,
      if_neg hT, List.append_assoc, List.singleton_append]

theorem handleValidated_empty_eq (a : PostArgs) (req : RequestBody)
    (hstream : a.env.mockMode = false → a.apiError = none)
    (hT : jsTrim (finalTextOf a req) = "") :
    handleValidated a req =
      ⟨(catchHandler (some req.sessionId) "No response generated" a.env.devMode).1,
        userEvent req :: streamChunkEvents a req ++
          (catchHandler (some req.sessionId) "No response generated" a.env.devMode).2,
        setConv a.conv req.sessionId
          (baseConv a.conv req.sessionId ++ [⟨Role.user, req.message⟩])⟩ := by
  by_cases hm : a.env.mockMode = true
  · obtain ⟨h1, h2⟩ := streamChunks_mock a req hm
    simp only [handleValidated, hm, eq_self_iff_true, if_true, finishRequest, h1, h2,
      if_pos hT]
  · have hf : a.env.mockMode = false := mockMode_false_of_not _ hm
    obtain ⟨h1, h2⟩ := streamChunks_model a req hf
    have hnone := hstream hf
    simp only [handleValidated, hf, Bool.false_eq_true, if_false, hnone, finishRequest, h1, h2,
      if_pos hT]

theorem handleValidated_apiError_eq (a : PostArgs) (req : RequestBody) (e : OpenAIErr)
    (hm : a.env.mockMode = false) (herr : a.apiError = some e) :
    handleValidated a req =
      ⟨⟨(handleOpenAIError e).status,
          RespBody.err (handleOpenAIError e).message (some (handleOpenAIError e).code)
            (if a.env.devMode then some e.asString else none)⟩,
        userEvent req :: streamChunkEvents a req ++
          [⟨chatChannel req.sessionId, "service-error",
            EventPayload.serviceError (handleOpenAIError e).message (handleOpenAIError e).code⟩],
        setConv a.conv req.sessionId
          (baseConv a.conv req.sessionId ++ [⟨Role.user, req.message⟩])⟩ := by
  obtain ⟨h1, h2⟩ := streamChunks_model a req hm
  simp only [handleValidated, hm, Bool.false_eq_true, if_false, herr, h1, h2]

theorem POST_body (a : PostArgs) (b : JBodyTop) (req : RequestBody)
    (hin : a.input = PostInput.parsedBody b)
    (hval : validateRequestBody b = Except.ok req) :
    POST a = handleValidated a req := by
  simp only [POST, hin, hval]

theorem POST_body_err (a : PostArgs) (b : JBodyTop) (m : String)
    (hin : a.input = PostInput.parsedBody b)
    (hval : validateRequestBody b = Except.error m) :
    POST a = reportCatch a m := by
  simp only [POST, hin, hval]

theorem catchHandler_valmsg (m : String) (dev : Bool)
    (hv : isValidationErrorMsg m = true) :
    catchHandler none m dev =
      (⟨400, RespBody.err m (some "VALIDATION_ERROR") (if dev then some m else none)⟩,
        []) := by
  simp only [catchHandler, hv, if_true]

theorem catchHandler_procmsg (m : String) (dev : Bool)
    (hv : isValidationErrorMsg m = false) :
    catchHandler none m dev =
      (⟨500, RespBody.err "Failed to process message" (some "PROCESSING_ERROR")
          (if dev then some m else none)⟩,
        []) := by
  simp only [catchHandler, hv, Bool.false_eq_true, if_false]

theorem catchHandler_noresp (sid : String) (dev : Bool) :
    catchHandler (some sid) "No response generated" dev =
      (⟨500, RespBody.err "Failed to process message" (some "PROCESSING_ERROR")
          (if dev then some "No response generated" else none)⟩,
        [⟨chatChannel sid, "error",
          EventPayload.errorEvent "Failed to process message" "PROCESSING_ERROR"
            (if dev then some "No response generated" else none)⟩]) := by
  have h : isValidationErrorMsg "No response generated" = false := by decide
  simp only [catchHandler, h, Bool.false_eq_true, if_false]

/-! ## Claim C1 -/

/-- C1 counterexample: the claim as stated covers every stream succeeding
with non-empty final text, but for the model-backed request `c5args` the
stream succeeds (no API error) with the non-empty final text " ", and the
handler returns HTTP 500 rather than 200 with no assistant turn appended —
the session's transcript holds only the system and user turns. -/
theorem c1_counterexample :
    c5args.apiError = none ∧
    finalTextOf c5args wReqX = " " ∧
    ¬ finalTextOf c5args wReqX = "" ∧
    (POST c5args).response.status = 500 ∧
    ¬ (POST c5args).response =
        ⟨200, RespBody.ok true c5args.messageId (finalTextOf c5args wReqX)⟩ ∧
    (POST c5args).convs "s1" = some [⟨Role.system, systemPrompt⟩, ⟨Role.user, "x"⟩] := by
  decide

/-- C1 (amended): for every request that passes validation and whose
streaming succeeds with final text that is not empty or whitespace-only,
the handler returns HTTP 200 with body success, messageId and the final
assistant text, and the session's transcript becomes its previous value
plus exactly one user turn and then one assistant turn, other sessions
untouched; consequently two sequential such requests on a fresh session
leave 5 turns in order: system, user1, assistant1, user2, assistant2.
(A stream succeeding with non-empty but whitespace-only final text is
instead treated as a processing failure — see C5 and C7.) -/
theorem c1_success_turns :
    (∀ (a : PostArgs) (b : JBodyTop) (req : RequestBody),
        a.input = PostInput.parsedBody b →
        validateRequestBody b = Except.ok req →
        (a.env.mockMode = false → a.apiError = none) →
        ¬ jsTrim (finalTextOf a req) = "" →
        (POST a).response = ⟨200, RespBody.ok true a.messageId (finalTextOf a req)⟩ ∧
        (POST a).convs req.sessionId =
          some (baseConv a.conv req.sessionId ++
            [⟨Role.user, req.message⟩, ⟨Role.assistant, finalTextOf a req⟩]) ∧
        (∀ k, ¬ k = req.sessionId → (POST a).convs k = a.conv k)) ∧
    (∀ (a1 a2 : PostArgs) (b1 b2 : JBodyTop) (req1 req2 : RequestBody),
        a1.input = PostInput.parsedBody b1 →
        validateRequestBody b1 = Except.ok req1 →
        (a1.env.mockMode = false → a1.apiError = none) →
        ¬ jsTrim (finalTextOf a1 req1) = "" →
        a2.input = PostInput.parsedBody b2 →
        validateRequestBody b2 = Except.ok req2 →
        (a2.env.mockMode = false → a2.apiError = none) →
        ¬ jsTrim (finalTextOf a2 req2) = "" →
        req2.sessionId = req1.sessionId →
        a1.conv req1.sessionId = none →
        (∀ k, a2.conv k = (POST a1).convs k) →
        (POST a2).convs req1.sessionId =
          some [⟨Role.system, systemPrompt⟩, ⟨Role.user, req1.message⟩,
            ⟨Role.assistant, finalTextOf a1 req1⟩, ⟨Role.user, req2.message⟩,
            ⟨Role.assistant, finalTextOf a2 req2⟩]) := by
  have main : ∀ (a : PostArgs) (b : JBodyTop) (req : RequestBody),
      a.input = PostInput.parsedBody b →
      validateRequestBody b = Except.ok req →
      (a.env.mockMode = false → a.apiError = none) →
      ¬ jsTrim (finalTextOf a req) = "" →
      (POST a).response = ⟨200, RespBody.ok true a.messageId (finalTextOf a req)⟩ ∧
      (POST a).convs req.sessionId =
        some (baseConv a.conv req.sessionId ++
          [⟨Role.user, req.message⟩, ⟨Role.assistant, finalTextOf a req⟩]) ∧
      (∀ k, ¬ k = req.sessionId → (POST a).convs k = a.conv k) := by
    intro a b req hin hval hstream hT
    rw [POST_body a b req hin hval, handleValidated_success_eq a req hstream hT]
    refine ⟨rfl, ?_, ?_⟩
    · simp [setConv]
    · intro k hk
      simp [setConv, hk]
  refine ⟨main, ?_⟩
  intro a1 a2 b1 b2 req1 req2 hin1 hval1 hs1 hT1 hin2 hval2 hs2 hT2 hsid hfresh hnext
  obtain ⟨-, hconv1, -⟩ := main a1 b1 req1 hin1 hval1 hs1 hT1
  obtain ⟨-, hconv2, -⟩ := main a2 b2 req2 hin2 hval2 hs2 hT2
  have hbase1 : baseConv a1.conv req1.sessionId = [⟨Role.system, systemPrompt⟩] := by
    unfold baseConv
    rw [hfresh]
  have ha2 : a2.conv req2.sessionId =
      some ([⟨Role.system, systemPrompt⟩] ++
        [⟨Role.user, req1.message⟩, ⟨Role.assistant, finalTextOf a1 req1⟩]) := by
    rw [hsid, hnext req1.sessionId, hconv1, hbase1]
  have hbase2 : baseConv a2.conv req2.sessionId =
      [⟨Role.system, systemPrompt⟩] ++
        [⟨Role.user, req1.message⟩, ⟨Role.assistant, finalTextOf a1 req1⟩] := by
    unfold baseConv
    rw [ha2]
  rw [← hsid, hconv2, hbase2]
  simp

/-- C1 witness: the mock request "hello" on fresh session "s1" returns 200
with the mock reply as message and stores system, user, assistant turns. -/
theorem c1_witness :
    (POST wArgs1).response = ⟨200, RespBody.ok true wArgs1.messageId (finalTextOf wArgs1 wReq1)⟩ ∧
    (POST wArgs1).convs wReq1.sessionId =
      some (baseConv wArgs1.conv wReq1.sessionId ++
        [⟨Role.user, wReq1.message⟩, ⟨Role.assistant, finalTextOf wArgs1 wReq1⟩]) := by
  have h := c1_success_turns.1 wArgs1
    (JBodyTop.obj (JFieldVal.str "hello") (JFieldVal.str "s1") JFieldVal.undef) wReq1
    rfl (by decide) (by decide) (by decide)
  exact ⟨h.1, h.2.1⟩

/-! ## Claim C2 -/

/-- C2 counterexample: on the empty-string message the handler does return
HTTP 400 with errorCode VALIDATION_ERROR, but the error text is "Message is
required and must be a string" (the falsy check fires first), not the
claimed "Message cannot be empty". -/
theorem c2_counterexample :
    (POST c2args).response =
      ⟨400, RespBody.err "Message is required and must be a string" (some "VALIDATION_ERROR")
        none⟩ ∧
    ¬ (POST c2args).response =
      ⟨400, RespBody.err "Message cannot be empty" (some "VALIDATION_ERROR") none⟩ := by
  decide

/-- C2 (amended): for a POST whose body has message equal to the empty
string, the handler returns HTTP 400 with error text "Message is required
and must be a string" and errorCode VALIDATION_ERROR, publishes no events
and leaves every conversation untouched. -/
theorem c2_empty_message (a : PostArgs) (sid uid : JFieldVal)
    (hin : a.input = PostInput.parsedBody (JBodyTop.obj (JFieldVal.str "") sid uid)) :
    (POST a).response =
      ⟨400, RespBody.err "Message is required and must be a string" (some "VALIDATION_ERROR")
        (if a.env.devMode then some "Message is required and must be a string" else none)⟩ ∧
    (POST a).attempts = [] ∧
    (∀ k, (POST a).convs k = a.conv k) := by
  have hval : validateRequestBody (JBodyTop.obj (JFieldVal.str "") sid uid) =
      Except.error "Message is required and must be a string" := rfl
  rw [POST_body_err a _ _ hin hval]
  unfold reportCatch
  rw [catchHandler_valmsg _ _ (by decide)]
  exact ⟨rfl, rfl, fun k => rfl⟩

/-- C2 witness: the concrete empty-message request. -/
theorem c2_witness :
    (POST c2args).response =
      ⟨400, RespBody.err "Message is required and must be a string" (some "VALIDATION_ERROR")
        (if c2args.env.devMode then some "Message is required and must be a string" else none)⟩ ∧
    (POST c2args).attempts = [] := by
  have h := c2_empty_message c2args (JFieldVal.str "s1") JFieldVal.undef rfl
  exact ⟨h.1, h.2.1⟩

/-! ## Claim C3 -/

/-- C3 counterexample: 4000 letters plus a trailing space has trimmed
length 4000 (at most 4000), yet the validator rejects it with the
length-rule error — the check is on the raw, untrimmed length. -/
theorem c3_counterexample :
    validateRequestBody
        (JBodyTop.obj (JFieldVal.str longMsg) (JFieldVal.str "s1") JFieldVal.undef) =
      Except.error "Message too long (max 4000 characters)" ∧
    utf16Len (jsTrim longMsg) ≤ 4000 := by
  constructor
  · simp only [validateRequestBody]
    rw [if_neg longMsg_ne_empty, if_neg (by decide : ¬ ("s1" : String) = "")]
    rw [show longMsg = String.mk (List.replicate 4000 'a' ++ [' ']) from rfl,
      jsTrim_replicate_space 4000, utf16Len_replicate_a]
    rw [if_neg (by decide : ¬ (4000 : Nat) = 0)]
    rw [show utf16Len (String.mk (List.replicate 4000 'a' ++ [' '])) = 4001 from
      utf16Len_longMsg, if_pos (by decide : (4000 : Nat) < 4001)]
  · rw [show longMsg = String.mk (List.replicate 4000 'a' ++ [' ']) from rfl,
      jsTrim_replicate_space 4000, utf16Len_replicate_a]

/-- C3 (amended): the validator's length rule is on the raw, untrimmed
message: for a payload whose message and sessionId are non-empty strings
and whose trimmed message is non-empty, raw length over 4000 yields HTTP
400 with the length error, no events and no turns, while raw length at
most 4000 passes validation and yields the trimmed message. -/
theorem c3_length_rule (a : PostArgs) (m s : String) (u : JFieldVal)
    (hin : a.input = PostInput.parsedBody (JBodyTop.obj (JFieldVal.str m) (JFieldVal.str s) u))
    (hm : ¬ m = "") (hs : ¬ s = "") (htrim : ¬ jsTrim m = "") :
    (4000 < utf16Len m →
      (POST a).response =
        ⟨400, RespBody.err "Message too long (max 4000 characters)" (some "VALIDATION_ERROR")
          (if a.env.devMode then some "Message too long (max 4000 characters)" else none)⟩ ∧
      (POST a).attempts = [] ∧
      (∀ k, (POST a).convs k = a.conv k)) ∧
    (utf16Len m ≤ 4000 →
      validateRequestBody (JBodyTop.obj (JFieldVal.str m) (JFieldVal.str s) u) =
        Except.ok ⟨jsTrim m, s, defaultUserId u⟩) := by
  have hzero : ¬ utf16Len (jsTrim m) = 0 :=
    fun hh => htrim ((utf16Len_eq_zero_iff (jsTrim m)).1 hh)
  constructor
  · intro hlong
    have hval : validateRequestBody (JBodyTop.obj (JFieldVal.str m) (JFieldVal.str s) u) =
        Except.error "Message too long (max 4000 characters)" := by
      simp only [validateRequestBody]
      rw [if_neg hm, if_neg hs, if_neg hzero, if_pos hlong]
    rw [POST_body_err a _ _ hin hval]
    unfold reportCatch
    rw [catchHandler_valmsg _ _ (by decide)]
    exact ⟨rfl, rfl, fun k => rfl⟩
  · intro hshort
    simp only [validateRequestBody]
    rw [if_neg hm, if_neg hs, if_neg hzero, if_neg (by omega)]

/-- C3 witness: "hello" is within the bound and validates to itself. -/
theorem c3_witness :
    validateRequestBody
        (JBodyTop.obj (JFieldVal.str "hello") (JFieldVal.str "s1") JFieldVal.undef) =
      Except.ok ⟨jsTrim "hello", "s1", defaultUserId JFieldVal.undef⟩ :=
  (c3_length_rule c3args "hello" "s1" JFieldVal.undef rfl (by decide) (by decide)
    (by decide)).2 (by decide)

/-! ## Claim C4 -/

/-- C4: the error classifier is total and deterministic, its code and
status follow the claimed precedence table (429 with insufficient_quota,
then 429, 401, 400, status at least 500, ENOTFOUND or ECONNREFUSED, else
unknown), and each branch's user-facing message is a fixed string that
depends only on the classified code, never on the raw error's content. -/
theorem c4_classifier_table (e : OpenAIErr) :
    handleOpenAIError e =
      ⟨fixedMessageOf (classifyCodeStatus e).1, (classifyCodeStatus e).1,
        (classifyCodeStatus e).2⟩ := by
  by_cases h429 : e.status = some 429
  · by_cases hq : e.code = some "insufficient_quota" <;>
      simp [handleOpenAIError, classifyCodeStatus, fixedMessageOf, h429, hq]
  · by_cases h401 : e.status = some 401
    · simp [handleOpenAIError, classifyCodeStatus, fixedMessageOf, h429, h401]
    · by_cases h400 : e.status = some 400
      · simp [handleOpenAIError, classifyCodeStatus, fixedMessageOf, h429, h401, h400]
      · by_cases h5 : 500 ≤ e.status.getD 0
        · simp [handleOpenAIError, classifyCodeStatus, fixedMessageOf, h429, h401, h400, h5]
        · by_cases hcf : e.code = some "ENOTFOUND"
          · simp [handleOpenAIError, classifyCodeStatus, fixedMessageOf,
              h429, h401, h400, h5, hcf]
          · by_cases hcr : e.code = some "ECONNREFUSED" <;>
              simp [handleOpenAIError, classifyCodeStatus, fixedMessageOf,
                h429, h401, h400, h5, hcf, hcr]

/-! ## Claim C5 -/

/-- C5 counterexample: a model-backed stream that succeeds (no API error)
after delivering a single whitespace delta produces final text " ", has one
chunk event, yet isComplete true appears zero times — no completion event
is published, because the whitespace-only text is routed to the
"No response generated" failure instead. -/
theorem c5_counterexample :
    c5args.apiError = none ∧
    finalTextOf c5args wReqX = " " ∧
    (POST c5args).attempts.countP (fun ev => ev.event == "assistant-message-chunk") = 1 ∧
    (POST c5args).attempts.countP isCompleteTrue = 0 := by
  decide

/-- C5 (amended): for every validated request whose stream completes, the
chunk events' contents chain by string extension (each content is the
previous content plus that event's chunk) and every chunk event carries
isComplete false; when the final text is not whitespace-only, the last
chunk content equals the final text, the trace ends with the single
assistant-message-complete event and isComplete true appears exactly once;
when the final text is empty or whitespace-only, isComplete true never
appears and no assistant-message-complete event is published. -/
theorem c5_chunk_invariant (a : PostArgs) (b : JBodyTop) (req : RequestBody)
    (hin : a.input = PostInput.parsedBody b)
    (hval : validateRequestBody b = Except.ok req)
    (hstream : a.env.mockMode = false → a.apiError = none) :
    chainFrom "" (chunkRecs (POST a).attempts) = true ∧
    (∀ ev ∈ (POST a).attempts,
      ev.event = "assistant-message-chunk" → isCompleteTrue ev = false) ∧
    (¬ jsTrim (finalTextOf a req) = "" →
      (chunkContents (POST a).attempts).getLast? = some (finalTextOf a req) ∧
      (POST a).attempts.getLast? =
        some ⟨chatChannel req.sessionId, "assistant-message-complete",
          EventPayload.assistantComplete a.messageId (finalTextOf a req) true⟩ ∧
      (POST a).attempts.countP isCompleteTrue = 1) ∧
    (jsTrim (finalTextOf a req) = "" →
      (POST a).attempts.countP isCompleteTrue = 0 ∧
      ∀ ev ∈ (POST a).attempts, ¬ ev.event = "assistant-message-complete") := by
  rw [POST_body a b req hin hval]
  by_cases hT : jsTrim (finalTextOf a req) = ""
  · rw [handleValidated_empty_eq a req hstream hT, catchHandler_noresp]
    refine ⟨?_, ?_, ?_, ?_⟩
    · unfold chunkRecs
      rw [List.filterMap_append, List.filterMap_cons]
      rw [show chunkRecOf (userEvent req) = none from rfl]
      rw [show List.filterMap chunkRecOf (streamChunkEvents a req)
          = chunkRecs (streamChunkEvents a req) from rfl]
      rw [streamChunkEvents_recs]
      simp only [List.filterMap_cons, List.filterMap_nil]
      rw [show chunkRecOf
          ⟨chatChannel req.sessionId, "error",
            EventPayload.errorEvent "Failed to process message" "PROCESSING_ERROR"
              (if a.env.devMode then some "No response generated" else none)⟩ = none from rfl]
      simp only [List.append_nil]
      exact chainFrom_chunkPairs (streamChunks a req) ""
    · intro ev hev hname
      rw [List.mem_append] at hev
      cases hev with
      | inl hev =>
        rw [List.mem_cons] at hev
        cases hev with
        | inl hev => rw [hev] at hname; simp [userEvent] at hname
        | inr hev =>
          obtain ⟨co, ch, rfl⟩ := streamChunkEvents_mem a req ev hev
          rfl
      | inr hev =>
        rw [List.mem_singleton] at hev
        rw [hev] at hname
        simp at hname
    · intro h
      exact absurd hT h
    · intro _
      constructor
      · rw [List.countP_append, List.countP_cons]
        rw [show isCompleteTrue (userEvent req) = false from rfl]
        rw [streamChunkEvents_countP]
        rfl
      · intro ev hev
        rw [List.mem_append] at hev
        cases hev with
        | inl hev =>
          rw [List.mem_cons] at hev
          cases hev with
          | inl hev => rw [hev]; simp [userEvent]
          | inr hev =>
            obtain ⟨co, ch, rfl⟩ := streamChunkEvents_mem a req ev hev
            simp
        | inr hev =>
          rw [List.mem_singleton] at hev
          rw [hev]
          simp
  · rw [handleValidated_success_eq a req hstream hT]
    refine ⟨?_, ?_, ?_, ?_⟩
    · unfold chunkRecs
      rw [List.filterMap_append, List.filterMap_cons]
      rw [show chunkRecOf (userEvent req) = none from rfl]
      rw [show List.filterMap chunkRecOf (streamChunkEvents a req)
          = chunkRecs (streamChunkEvents a req) from rfl]
      rw [streamChunkEvents_recs]
      simp only [List.filterMap_cons, List.filterMap_nil]
      rw [show chunkRecOf
          ⟨chatChannel req.sessionId, "assistant-message-complete",
            EventPayload.assistantComplete a.messageId (finalTextOf a req) true⟩
          = none from rfl]
      simp only [List.append_nil]
      exact chainFrom_chunkPairs (streamChunks a req) ""
    · intro ev hev hname
      rw [List.mem_append] at hev
      cases hev with
      | inl hev =>
        rw [List.mem_cons] at hev
        cases hev with
        | inl hev => rw [hev] at hname; simp [userEvent] at hname
        | inr hev =>
          obtain ⟨co, ch, rfl⟩ := streamChunkEvents_mem a req ev hev
          rfl
      | inr hev =>
        rw [List.mem_singleton] at hev
        rw [hev] at hname
        simp at hname
    · intro _
      refine ⟨?_, ?_, ?_⟩
      · unfold chunkContents chunkRecs
        rw [List.filterMap_append, List.filterMap_cons]
        rw [show chunkRecOf (userEvent req) = none from rfl]
        rw [show List.filterMap chunkRecOf (streamChunkEvents a req)
            = chunkRecs (streamChunkEvents a req) from rfl]
        rw [streamChunkEvents_recs]
        simp only [List.filterMap_cons, List.filterMap_nil]
        rw [show chunkRecOf
            ⟨chatChannel req.sessionId, "assistant-message-complete",
              EventPayload.assistantComplete a.messageId (finalTextOf a req) true⟩
            = none from rfl]
        simp only [List.append_nil]
        rw [chunkPairs_last (streamChunks a req) "" (streamChunks_ne_nil a req hT)]
        rw [← finalTextOf_foldl]
      · exact List.getLast?_concat _
      · rw [List.countP_append, List.countP_cons]
        rw [show isCompleteTrue (userEvent req) = false from rfl]
        rw [streamChunkEvents_countP]
        rfl
    · intro h
      exact absurd h hT

/-- C5 witness: the mock request "hello" satisfies the chain invariant,
its last chunk content is the final text, and isComplete true appears
exactly once. -/
theorem c5_witness :
    chainFrom "" (chunkRecs (POST wArgs1).attempts) = true ∧
    (chunkContents (POST wArgs1).attempts).getLast? = some (finalTextOf wArgs1 wReq1) ∧
    (POST wArgs1).attempts.countP isCompleteTrue = 1 := by
  have h := c5_chunk_invariant wArgs1
    (JBodyTop.obj (JFieldVal.str "hello") (JFieldVal.str "s1") JFieldVal.undef) wReq1
    rfl (by decide) (by decide)
  have h3 := h.2.2.1 (by decide)
  exact ⟨h.1, h3.1, h3.2.2⟩

/-! ## Claim C6 -/

/-- C6: when the model API call fails at any point (the deltas already
received having been published), the handler returns the classifier's
status with the classified message and code in the body, the trace ends
with exactly one service-error event carrying that message and code, no
assistant-message-complete event is published, and the session keeps the
user turn with no assistant turn appended. -/
theorem c6_model_error_path (a : PostArgs) (b : JBodyTop) (req : RequestBody) (e : OpenAIErr)
    (hin : a.input = PostInput.parsedBody b)
    (hval : validateRequestBody b = Except.ok req)
    (hmock : a.env.mockMode = false)
    (herr : a.apiError = some e) :
    (POST a).response =
      ⟨(handleOpenAIError e).status,
        RespBody.err (handleOpenAIError e).message (some (handleOpenAIError e).code)
          (if a.env.devMode then some e.asString else none)⟩ ∧
    (POST a).convs req.sessionId =
      some (baseConv a.conv req.sessionId ++ [⟨Role.user, req.message⟩]) ∧
    (POST a).attempts.getLast? =
      some ⟨chatChannel req.sessionId, "service-error",
        EventPayload.serviceError (handleOpenAIError e).message (handleOpenAIError e).code⟩ ∧
    (POST a).attempts.countP (fun ev => ev.event == "service-error") = 1 ∧
    (∀ ev ∈ (POST a).attempts, ¬ ev.event = "assistant-message-complete") := by
  rw [POST_body a b req hin hval, handleValidated_apiError_eq a req e hmock herr]
  refine ⟨rfl, by simp [setConv], List.getLast?_concat _, ?_, ?_⟩
  · have h0 : (streamChunkEvents a req).countP (fun ev => ev.event == "service-error") = 0 := by
      rw [List.countP_eq_zero]
      intro ev hev
      obtain ⟨co, ch, rfl⟩ := streamChunkEvents_mem a req ev hev
      simp
    rw [List.countP_append, List.countP_cons, h0]
    simp [userEvent]
  · intro ev hev
    rw [List.mem_append] at hev
    cases hev with
    | inl hev =>
      rw [List.mem_cons] at hev
      cases hev with
      | inl hev => rw [hev]; simp [userEvent]
      | inr hev =>
        obtain ⟨co, ch, rfl⟩ := streamChunkEvents_mem a req ev hev
        simp
    | inr hev =>
      rw [List.mem_singleton] at hev
      rw [hev]
      simp

/-- C6 witness: a mid-stream quota failure on session "s1". -/
theorem c6_witness :
    (POST c6args).response =
      ⟨(handleOpenAIError c6err).status,
        RespBody.err (handleOpenAIError c6err).message (some (handleOpenAIError c6err).code)
          (if c6args.env.devMode then some c6err.asString else none)⟩ ∧
    (POST c6args).convs wReq6.sessionId =
      some (baseConv c6args.conv wReq6.sessionId ++ [⟨Role.user, wReq6.message⟩]) ∧
    (POST c6args).attempts.countP (fun ev => ev.event == "service-error") = 1 := by
  have h := c6_model_error_path c6args
    (JBodyTop.obj (JFieldVal.str "x") (JFieldVal.str "s1") (JFieldVal.str "u1")) wReq6 c6err
    rfl (by decide) rfl rfl
  exact ⟨h.1, h.2.1, h.2.2.2.1⟩

/-! ## Claim C7 -/

/-- C7: when streaming completes but the final text is empty or
whitespace-only, the handler returns HTTP 500 with errorCode
PROCESSING_ERROR and text "Failed to process message" (the internal error
being "No response generated", surfaced only in the debug details), keeps
the user turn without appending an assistant turn, and the trace ends with
a generic error event on the session's channel. -/
theorem c7_empty_final_text (a : PostArgs) (b : JBodyTop) (req : RequestBody)
    (hin : a.input = PostInput.parsedBody b)
    (hval : validateRequestBody b = Except.ok req)
    (hstream : a.env.mockMode = false → a.apiError = none)
    (hT : jsTrim (finalTextOf a req) = "") :
    (POST a).response =
      ⟨500, RespBody.err "Failed to process message" (some "PROCESSING_ERROR")
        (if a.env.devMode then some "No response generated" else none)⟩ ∧
    (POST a).convs req.sessionId =
      some (baseConv a.conv req.sessionId ++ [⟨Role.user, req.message⟩]) ∧
    (POST a).attempts.getLast? =
      some ⟨chatChannel req.sessionId, "error",
        EventPayload.errorEvent "Failed to process message" "PROCESSING_ERROR"
          (if a.env.devMode then some "No response generated" else none)⟩ ∧
    (∀ ev ∈ (POST a).attempts, ¬ ev.event = "assistant-message-complete") := by
  rw [POST_body a b req hin hval, handleValidated_empty_eq a req hstream hT, catchHandler_noresp]
  refine ⟨rfl, by simp [setConv], List.getLast?_concat _, ?_⟩
  intro ev hev
  rw [List.mem_append] at hev
  cases hev with
  | inl hev =>
    rw [List.mem_cons] at hev
    cases hev with
    | inl hev => rw [hev]; simp [userEvent]
    | inr hev =>
      obtain ⟨co, ch, rfl⟩ := streamChunkEvents_mem a req ev hev
      simp
  | inr hev =>
    rw [List.mem_singleton] at hev
    rw [hev]
    simp

/-- C7 witness: a model-backed stream that ends with no deltas at all. -/
theorem c7_witness :
    (POST c7args).response =
      ⟨500, RespBody.err "Failed to process message" (some "PROCESSING_ERROR")
        (if c7args.env.devMode then some "No response generated" else none)⟩ ∧
    (POST c7args).convs wReqX.sessionId =
      some (baseConv c7args.conv wReqX.sessionId ++ [⟨Role.user, wReqX.message⟩]) := by
  have h := c7_empty_final_text c7args
    (JBodyTop.obj (JFieldVal.str "x") (JFieldVal.str "s1") JFieldVal.undef) wReqX
    rfl (by decide) (by decide) (by decide)
  exact ⟨h.1, h.2.1⟩

/-! ## Claim C8 -/

/-- C8: the publisher boundary absorbs every failure — sendPusherEvent
returns normally for every broker outcome, channel, event and payload —
and the handler's HTTP response, conversation store and attempted events
are identical whatever the per-attempt broker outcomes are: publish
outcomes never influence the orchestration result. -/
theorem c8_publish_best_effort :
    (∀ (ok : Bool) (channel event : String) (data : EventPayload),
        sendPusherEvent ok channel event data = Except.ok ()) ∧
    (∀ (a : PostArgs) (ok1 ok2 : Nat → Bool),
        (POSTrun a ok1).1.response = (POSTrun a ok2).1.response ∧
        (∀ k, (POSTrun a ok1).1.convs k = (POSTrun a ok2).1.convs k) ∧
        (POSTrun a ok1).1.attempts = (POSTrun a ok2).1.attempts) := by
  constructor
  · intro ok channel event data
    cases ok <;> rfl
  · intro a ok1 ok2
    exact ⟨rfl, fun k => rfl, rfl⟩

/-! ## Claim C9 -/

/-- C9 counterexample: for the message with two consecutive spaces the
mock splits the reply at every single space character, producing an empty
token (whose chunk is a lone space) — 20 chunks — while the reply has only
19 whitespace-separated words, so the chunk sequence is not one chunk per
whitespace-separated word. -/
theorem c9_counterexample :
    ¬ chunkFieldsOf (generateMockResponse "a  b" "m1" "s1").2 =
        prefixChunks (whitespaceWords (mockReply "a  b")) ∧
    (chunkFieldsOf (generateMockResponse "a  b" "m1" "s1").2).length = 20 ∧
    (whitespaceWords (mockReply "a  b")).length = 19 := by
  decide

/-- C9 (amended): the mock strategy is deterministic — its final text and
chunk strings depend only on the input message, not on the message or
session identifiers (nor, timestamps being excluded from the model, on the
run) — the final text equals the canned reply, the chunk strings are one
per token of the reply split at every single space character (the first
unchanged, each later one prefixed with a space, empty tokens from
consecutive spaces giving a lone-space chunk), the canned reply follows the
keyword table on the lower-cased input, and the strategy is a total
function that never fails. -/
theorem c9_mock_determinism (m mid sid mid2 sid2 : String) :
    (generateMockResponse m mid sid).1 = mockReply m ∧
    chunkFieldsOf (generateMockResponse m mid sid).2 =
      prefixChunks (jsSplitSpace (mockReply m)) ∧
    (generateMockResponse m mid2 sid2).1 = (generateMockResponse m mid sid).1 ∧
    chunkFieldsOf (generateMockResponse m mid2 sid2).2 =
      chunkFieldsOf (generateMockResponse m mid sid).2 ∧
    ((strIncludes (jsToLower m) "hello" || strIncludes (jsToLower m) "hi") = true →
      mockReply m = mockGreeting) ∧
    ((strIncludes (jsToLower m) "hello" || strIncludes (jsToLower m) "hi") = false →
      strIncludes (jsToLower m) "test" = true → mockReply m = mockTestReply) ∧
    ((strIncludes (jsToLower m) "hello" || strIncludes (jsToLower m) "hi") = false →
      strIncludes (jsToLower m) "test" = false →
      strIncludes (jsToLower m) "how are you" = true → mockReply m = mockStatusReply) ∧
    ((strIncludes (jsToLower m) "hello" || strIncludes (jsToLower m) "hi") = false →
      strIncludes (jsToLower m) "test" = false →
      strIncludes (jsToLower m) "how are you" = false → mockReply m = mockEchoReply m) := by
  have hfin : ∀ mida sida, (generateMockResponse m mida sida).1 = mockReply m := by
    intro mida sida
    rw [show generateMockResponse m mida sida
        = emitChunks sida mida "" (prefixChunks (jsSplitSpace (mockReply m))) from rfl]
    rw [emitChunks_fst]
    exact mockFold (mockReply m)
  have hflds : ∀ mida sida,
      chunkFieldsOf (generateMockResponse m mida sida).2 =
        prefixChunks (jsSplitSpace (mockReply m)) := by
    intro mida sida
    rw [show generateMockResponse m mida sida
        = emitChunks sida mida "" (prefixChunks (jsSplitSpace (mockReply m))) from rfl]
    exact emitChunks_fields sida mida (prefixChunks (jsSplitSpace (mockReply m))) ""
  refine ⟨hfin mid sid, hflds mid sid, ?_, ?_, ?_, ?_, ?_, ?_⟩
  · rw [hfin mid2 sid2, hfin mid sid]
  · rw [hflds mid2 sid2, hflds mid sid]
  · intro h
    simp only [mockReply, h, if_true]
  · intro h1 h2
    simp only [mockReply, h1, Bool.false_eq_true, if_false, h2, if_true]
  · intro h1 h2 h3
    simp only [mockReply, h1, Bool.false_eq_true, if_false, h2, h3, if_true]
  · intro h1 h2 h3
    simp only [mockReply, h1, Bool.false_eq_true, if_false, h2, h3]

/-- C9 witness: on "hello" the greeting branch is taken, the final text is
the greeting, and the chunk strings are independent of the identifiers. -/
theorem c9_witness :
    (generateMockResponse "hello" "m1" "s1").1 = mockReply "hello" ∧
    chunkFieldsOf (generateMockResponse "hello" "m1" "s1").2 =
      prefixChunks (jsSplitSpace (mockReply "hello")) ∧
    (generateMockResponse "hello" "m2" "s2").1 = (generateMockResponse "hello" "m1" "s1").1 ∧
    mockReply "hello" = mockGreeting := by
  have h := c9_mock_determinism "hello" "m1" "s1" "m2" "s2"
  exact ⟨h.1, h.2.1, h.2.2.1, h.2.2.2.2.1 (by decide)⟩

/-! ## Claim C10 -/

/-- C10: when the request body cannot be parsed as JSON, the handler
reaches the catch block before any session id is resolved; a parse error
message containing none of the four validation substrings yields HTTP 500
with errorCode PROCESSING_ERROR and the generic "Failed to process
message" text, no published events, and untouched conversations. -/
theorem c10_parse_failure (a : PostArgs) (m : String)
    (hin : a.input = PostInput.parseFailure m)
    (hm : isValidationErrorMsg m = false) :
    (POST a).response =
      ⟨500, RespBody.err "Failed to process message" (some "PROCESSING_ERROR")
        (if a.env.devMode then some m else none)⟩ ∧
    (POST a).attempts = [] ∧
    (∀ k, (POST a).convs k = a.conv k) := by
  simp only [POST, hin]
  unfold reportCatch
  rw [catchHandler_procmsg m a.env.devMode hm]
  exact ⟨rfl, rfl, fun k => rfl⟩

/-- C10 witness: the V8 message "Unexpected end of JSON input" matches no
validation substring and is handled as a processing error. -/
theorem c10_witness :
    (POST c10args).response =
      ⟨500, RespBody.err "Failed to process message" (some "PROCESSING_ERROR")
        (if c10args.env.devMode then some "Unexpected end of JSON input" else none)⟩ ∧
    (POST c10args).attempts = [] := by
  have h := c10_parse_failure c10args "Unexpected end of JSON input" rfl (by decide)
  exact ⟨h.1, h.2.1⟩

end ChatRelay
